import Mathlib

set_option linter.unnecessarySeqFocus false

/-!
Shallow embedding of `mlcvs/lda.py` (classes `LinearDiscriminant` and `DeepLDA`).

Modelling conventions:
* torch tensors of floats are idealized as exact rationals (`ℚ`); a feature
  batch `H` of shape `(N, d)` is a `Matrix (Fin N) (Fin d) ℚ`, labels are a
  function `Fin N → ℤ`.
* Deterministic arithmetic (scatter matrices, regularization, truncation,
  string export, state updates) is embedded as computable functions,
  translated line by line from the source.
* The numeric library calls whose exact results live outside the repository
  (`torch.cholesky`, `torch.inverse`, `torch.symeig`, `torch.sort`, and the
  square root inside the column normalization) are embedded relationally: a
  `SolveRun` packages candidate outputs for these calls and `ValidRun` states
  the defining equations each of those library calls guarantees (Cholesky
  factor with positive diagonal, two-sided inverses, orthonormal
  eigendecomposition, a sorting permutation, nonnegative square roots of the
  column norms).  Claims about the solver are settled by quantifying over
  valid runs, and counterexamples exhibit explicit concrete runs.
* Rational division by zero is `0` in Lean; where the source can actually
  divide by zero (a class with a single sample) the theorems expose the
  zero divisor itself rather than relying on that convention.
* The source raises no exception of its own anywhere; the Python/torch
  exceptions that can escape (`TypeError` from `matmul` on `None`,
  `IndexError` from `eigvals[0]` on an empty tensor, `RuntimeError` from
  `torch.cholesky` on a non positive-definite matrix) are modelled by
  `PyExc`, together with the error names used in the specification
  (`InvalidClassCountError`, `InsufficientSamplesError`, `NotFittedError`,
  `NonPositiveDefiniteError`) so that claims about these can be stated.
-/

namespace Mlcvs

open scoped Matrix

/-- Exception kinds: the spec's error taxonomy plus the Python/torch
exceptions the source can actually raise. -/
inductive PyExc where
  | invalidClassCountError
  | insufficientSamplesError
  | notFittedError
  | nonPositiveDefiniteError
  | typeError
  | indexError
  | runtimeError
deriving DecidableEq

/-- Embedding of `torch.sign` on a scalar. -/
def sgnQ (q : ℚ) : ℚ := if q < 0 then -1 else if q = 0 then 0 else 1

variable {N d : ℕ}

/-- Embedding of `categ = torch.unique(label)` viewed as a set: the set of
distinct labels present in the batch. -/
def classSet (y : Fin N → ℤ) : Finset ℤ := Finset.image y Finset.univ

/-- Embedding of `n_categ = len(categ)`. -/
def nCateg (y : Fin N → ℤ) : ℕ := (classSet y).card

/-- Indices of the samples belonging to class `c`
(`torch.nonzero(label == i)`). -/
def classIdx (y : Fin N → ℤ) (c : ℤ) : Finset (Fin N) :=
  Finset.univ.filter fun i => y i = c

/-- Embedding of `N_i = H_i.shape[0]`: number of samples of class `c`. -/
def Nc (y : Fin N → ℤ) (c : ℤ) : ℕ := (classIdx y c).card

/-- Column means of the batch, `torch.mean(H, 0, True)`. -/
def globalMean (H : Matrix (Fin N) (Fin d) ℚ) (j : Fin d) : ℚ :=
  (∑ i, H i j) / (N : ℚ)

/-- Embedding of `H_bar = H - torch.mean(H, 0, True)`. -/
def Hbar (H : Matrix (Fin N) (Fin d) ℚ) : Matrix (Fin N) (Fin d) ℚ :=
  Matrix.of fun i j => H i j - globalMean H j

/-- Embedding of `S_t = H_bar.t().matmul(H_bar) / (N - 1)`. -/
def S_t (H : Matrix (Fin N) (Fin d) ℚ) : Matrix (Fin d) (Fin d) ℚ :=
  ((N : ℚ) - 1)⁻¹ • ((Hbar H)ᵀ * Hbar H)

/-- Per-class mean `torch.mean(H_i, 0, True)` of the rows of class `c`. -/
def classMean (H : Matrix (Fin N) (Fin d) ℚ) (y : Fin N → ℤ) (c : ℤ)
    (j : Fin d) : ℚ :=
  (∑ i ∈ classIdx y c, H i j) / (Nc y c : ℚ)

/-- Embedding of `H_i_bar.t().matmul(H_i_bar)` for class `c`: the unscaled
within-class scatter contribution of class `c`. -/
def S_c (H : Matrix (Fin N) (Fin d) ℚ) (y : Fin N → ℤ) (c : ℤ) :
    Matrix (Fin d) (Fin d) ℚ :=
  Matrix.of fun a b =>
    ∑ i ∈ classIdx y c, (H i a - classMean H y c a) * (H i b - classMean H y c b)

/-- Scale factor `1 / ((N_i - 1) * n_categ)` applied to the contribution of
class `c`; its denominator is `0` when the class has exactly one sample. -/
def classDivisor (y : Fin N → ℤ) (c : ℤ) : ℚ :=
  ((Nc y c : ℚ) - 1) * (nCateg y : ℚ)

/-- Embedding of the `S_w` accumulation loop (classes with `N_i == 0`
are skipped by the `continue`). -/
def S_w (H : Matrix (Fin N) (Fin d) ℚ) (y : Fin N → ℤ) :
    Matrix (Fin d) (Fin d) ℚ :=
  ∑ c ∈ classSet y,
    if Nc y c = 0 then 0 else (classDivisor y c)⁻¹ • S_c H y c

/-- Embedding of `S_b = S_t - S_w` (computed before regularization). -/
def S_b (H : Matrix (Fin N) (Fin d) ℚ) (y : Fin N → ℤ) :
    Matrix (Fin d) (Fin d) ℚ :=
  S_t H - S_w H y

/-- Embedding of `S_w = S_w + sw_reg * torch.diag(ones)`: the regularized
within scatter (the local variable `S_w` is reassigned in the source, and it
is this regularized matrix that gets stored by a saving solve). -/
def S_w_reg (H : Matrix (Fin N) (Fin d) ℚ) (y : Fin N → ℤ) (swr : ℚ) :
    Matrix (Fin d) (Fin d) ℚ :=
  S_w H y + swr • (1 : Matrix (Fin d) (Fin d) ℚ)

/-- Candidate outputs of the numeric library calls inside one execution of
`LinearDiscriminant.LDA`: the Cholesky factor `L`, the inverses `L_i` of `L`
and `L_ti` of `L.t()`, the eigenpairs `(w0, V0)` returned by `torch.symeig`,
the sorting permutation produced by `torch.sort(descending=True)`, and the
square roots `norms` of the squared column norms used by the normalization
loop. -/
structure SolveRun (d : ℕ) where
  L : Matrix (Fin d) (Fin d) ℚ
  L_i : Matrix (Fin d) (Fin d) ℚ
  L_ti : Matrix (Fin d) (Fin d) ℚ
  V0 : Matrix (Fin d) (Fin d) ℚ
  w0 : Fin d → ℚ
  perm : Equiv.Perm (Fin d)
  norms : Fin d → ℚ

/-- Embedding of `S_new = L_i.matmul(S_b).matmul(L_ti)`. -/
def S_new (H : Matrix (Fin N) (Fin d) ℚ) (y : Fin N → ℤ) (r : SolveRun d) :
    Matrix (Fin d) (Fin d) ℚ :=
  r.L_i * S_b H y * r.L_ti

/-- Eigenvalues after `torch.sort(eigvals, 0, descending=True)`. -/
def sortedVals (r : SolveRun d) (i : Fin d) : ℚ := r.w0 (r.perm i)

/-- Eigenvector matrix after the column permutation `eigvecs[:, indices]`. -/
def V1 (r : SolveRun d) : Matrix (Fin d) (Fin d) ℚ :=
  Matrix.of fun i j => r.V0 i (r.perm j)

/-- Embedding of `eigvecs = torch.matmul(L_ti, eigvecs)`: eigenvectors mapped
back to the original space. -/
def V2 (r : SolveRun d) : Matrix (Fin d) (Fin d) ℚ :=
  r.L_ti * V1 r

/-- Embedding of the normalization loop `eigvecs[:, i].div_(norm)`. -/
def V3 (r : SolveRun d) : Matrix (Fin d) (Fin d) ℚ :=
  Matrix.of fun i j => V2 r i j / r.norms j

/-- Embedding of the sign fix
`eigvecs.mul_(torch.sign(eigvecs[0, :]).unsqueeze(0).expand_as(eigvecs))`:
each column is multiplied by the sign of its first coordinate. -/
def V4 [NeZero d] (r : SolveRun d) : Matrix (Fin d) (Fin d) ℚ :=
  Matrix.of fun i j => V3 r i j * sgnQ (V3 r 0 j)

/-- Specification of the library calls for one execution of `LDA`: `L` is the
lower-Cholesky factor of the regularized within scatter, `L_i` and `L_ti` are
the two-sided inverses of `L` and `L.t()`, `(w0, V0)` is an orthonormal
eigendecomposition of `S_new`, `perm` sorts the eigenvalues in descending
order, and `norms` are the nonnegative square roots of the squared column
norms of the back-mapped eigenvectors. -/
structure ValidRun (H : Matrix (Fin N) (Fin d) ℚ) (y : Fin N → ℤ) (swr : ℚ)
    (r : SolveRun d) : Prop where
  lower : ∀ i j : Fin d, (i : ℕ) < (j : ℕ) → r.L i j = 0
  posdiag : ∀ i, 0 < r.L i i
  chol : r.L * (r.L)ᵀ = S_w_reg H y swr
  left_inv : r.L_i * r.L = 1
  right_inv : r.L * r.L_i = 1
  left_tinv : r.L_ti * (r.L)ᵀ = 1
  right_tinv : (r.L)ᵀ * r.L_ti = 1
  orth : (r.V0)ᵀ * r.V0 = 1
  eig : S_new H y r * r.V0 = r.V0 * Matrix.diagonal r.w0
  sorted : ∀ i j : Fin d, i ≤ j → r.w0 (r.perm j) ≤ r.w0 (r.perm i)
  norms_nonneg : ∀ j, 0 ≤ r.norms j
  norms_sq : ∀ j, (r.norms j) ^ 2 = ∑ i, (V2 r i j) ^ 2

/-- Embedding of the truncation `eigvals = eigvals[:n_categ-1]` applied to
the sorted eigenvalues: the returned eigenvalue list. -/
def eigvalsOut (y : Fin N → ℤ) (r : SolveRun d) : List ℚ :=
  ((List.finRange d).map (sortedVals r)).take (nCateg y - 1)

/-- Embedding of the truncation `eigvecs = eigvecs[:, :n_categ-1]`, stored
row-major as a list of rows. -/
def evecsOut [NeZero d] (y : Fin N → ℤ) (r : SolveRun d) : List (List ℚ) :=
  (List.finRange d).map fun i =>
    ((List.finRange d).map fun j => V4 r i j).take (nCateg y - 1)

/-- Conversion of a matrix to a row-major list of lists, used for the
values stored on the model object. -/
def matToList (M : Matrix (Fin n) (Fin m) ℚ) : List (List ℚ) :=
  (List.finRange n).map fun i => (List.finRange m).map fun j => M i j

/-- Stored attributes of a `LinearDiscriminant` instance. -/
structure LDAState where
  evals_ : Option (List ℚ)
  evecs_ : Option (List (List ℚ))
  S_b_ : Option (List (List ℚ))
  S_w_ : Option (List (List ℚ))
  d_ : Option ℕ
  features_names_ : Option (List String)
  sw_reg : ℚ
deriving DecidableEq

/-- State after `LinearDiscriminant.__init__` (default `sw_reg = 1e-6`). -/
def initState : LDAState :=
  { evals_ := none, evecs_ := none, S_b_ := none, S_w_ := none,
    d_ := none, features_names_ := none, sw_reg := 1 / 1000000 }

/-- State mutation performed by one successful execution of `LDA`:
`self.d_ = d` happens unconditionally (before the eigensolve), and the
remaining attributes are overwritten only under `if save_params:`; note that
the stored `S_w_` is the regularized within scatter. -/
def updState [NeZero d] (st : LDAState) (H : Matrix (Fin N) (Fin d) ℚ)
    (y : Fin N → ℤ) (r : SolveRun d) (save : Bool) : LDAState :=
  let st1 : LDAState := { st with d_ := some d }
  match save with
  | true =>
      { st1 with
        evals_ := some (eigvalsOut y r)
        evecs_ := some (evecsOut y r)
        S_b_ := some (matToList (S_b H y))
        S_w_ := some (matToList (S_w_reg H y st.sw_reg)) }
  | false => st1

/-- Positive definiteness over `ℚ`, the success condition of
`torch.cholesky`. -/
def PosDefQ (M : Matrix (Fin d) (Fin d) ℚ) : Prop :=
  Mᵀ = M ∧ ∀ v : Fin d → ℚ, v ≠ 0 → 0 < Matrix.dotProduct v (M.mulVec v)

/-- Big-step behavior of `LinearDiscriminant.LDA(H, label, save_params)`:
either the library calls succeed (described by a valid run) and the method
returns the truncated eigenvalues after updating the state, or
`torch.cholesky` fails on a non positive-definite regularized within scatter
and a `RuntimeError` escapes after `self.d_` has already been assigned. -/
def LDAStepRel [NeZero d] (st : LDAState) (H : Matrix (Fin N) (Fin d) ℚ)
    (y : Fin N → ℤ) (save : Bool)
    (out : LDAState × Except PyExc (List ℚ)) : Prop :=
  (∃ r : SolveRun d, ValidRun H y st.sw_reg r ∧
      out = (updState st H y r save, Except.ok (eigvalsOut y r)))
  ∨ (¬ PosDefQ (S_w_reg H y st.sw_reg) ∧
      out = ({ st with d_ := some d }, Except.error PyExc.runtimeError))

/-- Embedding of `LinearDiscriminant.set_regularization`: the source assigns
the constant `0.05` and ignores its argument. -/
def set_regularization (st : LDAState) (_r : ℚ) : LDAState :=
  { st with sw_reg := 1 / 20 }

/-- Dot product of two rational lists (helper for the matrix product used by
`transform`). -/
def dotQ (u v : List ℚ) : ℚ := (List.zipWith (· * ·) u v).sum

/-- Row-major list-of-lists matrix product (`torch.matmul(X, evecs_)`). -/
def listMatMul (A B : List (List ℚ)) : List (List ℚ) :=
  A.map fun row =>
    (List.range (B.headD []).length).map fun j =>
      dotQ row (B.map fun rw => rw.getD j 0)

/-- Embedding of `LinearDiscriminant.transform`: there is no fitted-check in
the source; `torch.matmul(X, None)` raises a `TypeError` when `evecs_` was
never stored. -/
def transform (st : LDAState) (X : List (List ℚ)) :
    Except PyExc (List (List ℚ)) :=
  match st.evecs_ with
  | none => Except.error PyExc.typeError
  | some V => Except.ok (listMatMul X V)

/-- Embedding of `LinearDiscriminant.set_features_names`. -/
def set_features_names (st : LDAState) (names : List String) : LDAState :=
  { st with features_names_ := some names }

/-- Round half to even (the rounding used by `np.round`). -/
def roundHalfEven (q : ℚ) : ℤ :=
  let f : ℤ := ⌊q⌋
  let rem : ℚ := q - f
  if rem < 1 / 2 then f
  else if 1 / 2 < rem then f + 1
  else if Even f then f else f + 1

/-- Strip up to `k` trailing decimal zeros from a natural number. -/
def strip10 : ℕ → ℕ → ℕ
  | 0, m => m
  | k + 1, m => if m % 10 = 0 then strip10 k (m / 10) else m

/-- Decimal rendering of the integer `n` of millionths: sign, integer part,
point, and the fractional digits with trailing zeros removed (a whole number
prints a single `0` after the point). -/
def fmt6core (n : ℤ) : String :=
  let sgnStr : String := if n < 0 then "-" else ""
  let m : ℕ := n.natAbs
  let ip : ℕ := m / 1000000
  let fp : ℕ := m % 1000000
  let fracStr : String :=
    if fp = 0 then "0"
    else
      String.join (List.replicate (6 - (Nat.repr fp).length) "0") ++
        Nat.repr (strip10 6 fp)
  sgnStr ++ Nat.repr ip ++ "." ++ fracStr

/-- Decimal rendering of `np.round(value, 6)` as produced by `str(...)`:
round the rational to 6 decimal places and print the resulting number of
millionths in decimal. -/
def fmt6 (q : ℚ) : String :=
  fmt6core (roundHalfEven (q * 1000000))

/-- Embedding of the Python slice `out[:-1]`: drop the final character. -/
def pyDropLast (s : String) : String := String.mk s.data.dropLast

/-- Embedding of `LinearDiscriminant.plumed_input`, translated statement by
statement: one `COMBINE` chunk per stored eigenvalue, with label `lda` when
there is exactly one component and `lda{i+1}` otherwise, comma-joined
argument names (features names when set, else `x0, x1, ...`), a
`COEFFICIENTS=` list formatted with `fmt6`, each list built by appending a
trailing comma then dropping it (`out = out[:-1]`), and a closing
`PERIODIC=NO`.  Accessing `len(None)` or `range(None)` or subscripting
`None` when the model was never fitted raises a `TypeError`. -/
def plumed_input (st : LDAState) : Except PyExc String :=
  match st.evals_, st.evecs_, st.d_ with
  | some evals, some evecs, some dd =>
      Except.ok <|
        (List.range evals.length).foldl
          (fun out i =>
            let out := out ++
              (if evals.length = 1 then "lda: COMBINE ARG="
               else "lda" ++ Nat.repr (i + 1) ++ ": COMBINE ARG=")
            let out := (List.range dd).foldl
              (fun o j =>
                o ++
                  (match st.features_names_ with
                   | none => "x" ++ Nat.repr j ++ ","
                   | some names => names.getD j "" ++ ",")) out
            let out := pyDropLast out
            let out := out ++ " COEFFICIENTS="
            let out := (List.range dd).foldl
              (fun o j => o ++ fmt6 ((evecs.getD j []).getD i 0) ++ ",") out
            let out := pyDropLast out
            out ++ " PERIODIC=NO") ""
  | _, _, _ => Except.error PyExc.typeError

/-- Stored attributes of a `DeepLDA` instance that the discriminant loss
reads (the training-log attributes play no part in the claims below). -/
structure DeepState extends LDAState where
  lorentzian_reg : ℚ
deriving DecidableEq

/-- State after `DeepLDA.__init__` (`sw_reg = 0.05`, `lorentzian_reg = 0`). -/
def deepInitState : DeepState :=
  { evals_ := none, evecs_ := none, S_b_ := none, S_w_ := none,
    d_ := none, features_names_ := none, sw_reg := 1 / 20,
    lorentzian_reg := 0 }

/-- Embedding of `DeepLDA.set_regularization` (the source default for the
first argument is `0.02`; when the second argument is omitted — `none` —
`lorentzian_reg` is set to `2 / sw_reg`). -/
def deep_set_regularization (st : DeepState) (swr : ℚ) (lor : Option ℚ) :
    DeepState :=
  { st with
    sw_reg := swr
    lorentzian_reg := match lor with | none => 2 / swr | some v => v }

/-- Embedding of `DeepLDA.regularization_lorentzian`:
`-lorentzian_reg / (1 + (mean(sum of squares) - 1)^2)`. -/
def regularization_lorentzian (st : DeepState)
    (H : Matrix (Fin N) (Fin d) ℚ) : ℚ :=
  -(st.lorentzian_reg / (1 + ((∑ i, ∑ j, (H i j) ^ 2) / (N : ℚ) - 1) ^ 2))

/-- Loss computed by `DeepLDA.loss_function` from the eigenvalue list that
`LDA` returned: `loss = -eigvals[0]` (an `IndexError` escapes when the list
is empty), plus the lorentzian regularization when `lorentzian_reg > 0`. -/
def lossOf (st : DeepState) (H : Matrix (Fin N) (Fin d) ℚ)
    (evs : List ℚ) : Except PyExc ℚ :=
  match evs with
  | [] => Except.error PyExc.indexError
  | v :: _ =>
      Except.ok
        (-v + if 0 < st.lorentzian_reg then regularization_lorentzian st H else 0)

/-- Big-step behavior of `DeepLDA.loss_function(H, y, save_params)`: it runs
`LDA` with the given `save_params` flag (updating the inherited state
accordingly) and converts the returned eigenvalues into the scalar loss. -/
def LossStepRel [NeZero d] (st : DeepState) (H : Matrix (Fin N) (Fin d) ℚ)
    (y : Fin N → ℤ) (save : Bool)
    (out : DeepState × Except PyExc ℚ) : Prop :=
  (∃ r : SolveRun d, ValidRun H y st.sw_reg r ∧
      out = ({ st with toLDAState := updState st.toLDAState H y r save },
             lossOf st H (eigvalsOut y r)))
  ∨ (¬ PosDefQ (S_w_reg H y st.sw_reg) ∧
      out = ({ st with toLDAState := { st.toLDAState with d_ := some d } },
             Except.error PyExc.runtimeError))

/-! Concrete data used by the witnesses and counterexamples below.

`exH3/exY3` is a three-class batch of six samples in two features; the
library-call outputs for it form `exRun3`, which is rational throughout:
the regularized within scatter (with `sw_reg = 1`) is `25 * I`, so the
Cholesky factor is `5 * I`, the whitened between scatter is
`diag(-12/125, -48/125)`, and `torch.symeig` (ascending) returns those two
eigenvalues with eigenvectors `e1, e0`. -/

/-- Three-class example batch: rows `(6,0), (-6,0), (3,6), (3,-6), (-3,0),
(-3,0)`. -/
def exH3 : Matrix (Fin 6) (Fin 2) ℚ :=
  Matrix.of ![![6, 0], ![-6, 0], ![3, 6], ![3, -6], ![-3, 0], ![-3, 0]]

/-- Labels of the three-class example batch. -/
def exY3 : Fin 6 → ℤ := ![0, 0, 1, 1, 2, 2]

/-- Library-call outputs for `exH3/exY3` at `sw_reg = 1`. -/
def exRun3 : SolveRun 2 :=
  { L := Matrix.of ![![5, 0], ![0, 5]]
    L_i := Matrix.of ![![1/5, 0], ![0, 1/5]]
    L_ti := Matrix.of ![![1/5, 0], ![0, 1/5]]
    V0 := Matrix.of ![![0, 1], ![1, 0]]
    w0 := ![-48/125, -12/125]
    perm := Equiv.swap 0 1
    norms := ![1/5, 1/5] }

/-- The classes present in the example batch. -/
lemma exClassSet : classSet exY3 = ({0, 1, 2} : Finset ℤ) := by decide

/-- Three classes are present in the example batch. -/
lemma exNCateg : nCateg exY3 = 3 := by decide

/-- Total scatter of the example batch. -/
lemma exS_t : S_t exH3 = Matrix.of ![![108/5, 0], ![0, 72/5]] := by
  ext a b
  fin_cases a <;> fin_cases b <;>
    norm_num [S_t, Hbar, globalMean, exH3, Matrix.mul_apply,
      Matrix.transpose_apply, Fin.sum_univ_succ, Fin.sum_univ_zero,
      Matrix.cons_val_zero, Matrix.cons_val_one, Matrix.head_cons,
      Matrix.cons_val_succ]

/-- Within scatter of the example batch. -/
lemma exS_w : S_w exH3 exY3 = Matrix.of ![![24, 0], ![0, 24]] := by
  have h0 : Nc (![0, 0, 1, 1, 2, 2] : Fin 6 → ℤ) 0 = 2 := by decide
  have h1 : Nc (![0, 0, 1, 1, 2, 2] : Fin 6 → ℤ) 1 = 2 := by decide
  have h2 : Nc (![0, 0, 1, 1, 2, 2] : Fin 6 → ℤ) 2 = 2 := by decide
  have h3 : nCateg (![0, 0, 1, 1, 2, 2] : Fin 6 → ℤ) = 3 := by decide
  rw [S_w, exClassSet, Finset.sum_insert (by decide),
    Finset.sum_insert (by decide), Finset.sum_singleton]
  ext a b
  fin_cases a <;> fin_cases b <;>
    norm_num [h0, h1, h2, h3, classDivisor, S_c, classMean, classIdx,
      Finset.sum_filter, exH3, exY3, Fin.sum_univ_succ,
      Fin.sum_univ_zero, Matrix.cons_val_zero, Matrix.cons_val_one,
      Matrix.head_cons, Matrix.cons_val_succ]

/-- Between scatter of the example batch. -/
lemma exS_b : S_b exH3 exY3 = Matrix.of ![![-12/5, 0], ![0, -48/5]] := by
  rw [S_b, exS_t, exS_w]
  ext a b
  fin_cases a <;> fin_cases b <;>
    norm_num [Matrix.sub_apply, Matrix.cons_val_zero, Matrix.cons_val_one,
      Matrix.head_cons, Matrix.cons_val_succ]

/-- Regularized within scatter of the example batch at `sw_reg = 1`. -/
lemma exS_w_reg : S_w_reg exH3 exY3 1 = Matrix.of ![![25, 0], ![0, 25]] := by
  rw [S_w_reg, exS_w]
  ext a b
  fin_cases a <;> fin_cases b <;>
    norm_num [Matrix.add_apply, Matrix.smul_apply, Matrix.one_apply,
      Matrix.cons_val_zero, Matrix.cons_val_one, Matrix.head_cons,
      Matrix.cons_val_succ]

/-- The whitened between scatter of the example run is diagonal. -/
lemma exS_new : S_new exH3 exY3 exRun3 =
    Matrix.of ![![-12/125, 0], ![0, -48/125]] := by
  rw [S_new, exS_b]
  ext a b
  fin_cases a <;> fin_cases b <;>
    norm_num [exRun3, Matrix.mul_apply, Fin.sum_univ_succ, Fin.sum_univ_zero,
      Matrix.cons_val_zero, Matrix.cons_val_one, Matrix.head_cons,
      Matrix.cons_val_succ]

/-- The outputs in `exRun3` satisfy every library-call specification for
the batch `exH3/exY3` at `sw_reg = 1`. -/
lemma exValid3 : ValidRun exH3 exY3 1 exRun3 := by
  refine ⟨?_, ?_, ?_, ?_, ?_, ?_, ?_, ?_, ?_, ?_, ?_, ?_⟩
  · intro i j hij
    fin_cases i <;> fin_cases j
    · exact absurd hij (by decide)
    · norm_num [exRun3]
    · exact absurd hij (by decide)
    · exact absurd hij (by decide)
  · intro i
    fin_cases i <;> norm_num [exRun3]
  · rw [exS_w_reg]
    ext a b
    fin_cases a <;> fin_cases b <;>
      norm_num [exRun3, Matrix.mul_apply, Matrix.transpose_apply,
        Matrix.vecHead, Matrix.vecTail, Fin.sum_univ_succ, Fin.sum_univ_zero,
        Matrix.cons_val_zero, Matrix.cons_val_one, Matrix.head_cons,
        Matrix.cons_val_succ]
  · ext a b
    fin_cases a <;> fin_cases b <;>
      norm_num [exRun3, Matrix.mul_apply, Matrix.one_apply, Fin.sum_univ_succ,
        Fin.sum_univ_zero, Matrix.cons_val_zero, Matrix.cons_val_one,
        Matrix.head_cons, Matrix.cons_val_succ]
  · ext a b
    fin_cases a <;> fin_cases b <;>
      norm_num [exRun3, Matrix.mul_apply, Matrix.one_apply, Fin.sum_univ_succ,
        Fin.sum_univ_zero, Matrix.cons_val_zero, Matrix.cons_val_one,
        Matrix.head_cons, Matrix.cons_val_succ]
  · ext a b
    fin_cases a <;> fin_cases b <;>
      norm_num [exRun3, Matrix.mul_apply, Matrix.one_apply,
        Matrix.transpose_apply, Matrix.vecHead, Matrix.vecTail,
        Fin.sum_univ_succ, Fin.sum_univ_zero, Matrix.cons_val_zero,
        Matrix.cons_val_one, Matrix.head_cons, Matrix.cons_val_succ]
  · ext a b
    fin_cases a <;> fin_cases b <;>
      norm_num [exRun3, Matrix.mul_apply, Matrix.one_apply,
        Matrix.transpose_apply, Matrix.vecHead, Matrix.vecTail,
        Fin.sum_univ_succ, Fin.sum_univ_zero, Matrix.cons_val_zero,
        Matrix.cons_val_one, Matrix.head_cons, Matrix.cons_val_succ]
  · ext a b
    fin_cases a <;> fin_cases b <;>
      norm_num [exRun3, Matrix.mul_apply, Matrix.one_apply,
        Matrix.transpose_apply, Matrix.vecHead, Matrix.vecTail,
        Fin.sum_univ_succ, Fin.sum_univ_zero, Matrix.cons_val_zero,
        Matrix.cons_val_one, Matrix.head_cons, Matrix.cons_val_succ]
  · rw [exS_new]
    ext a b
    fin_cases a <;> fin_cases b <;>
      norm_num [exRun3, Matrix.mul_apply, Matrix.diagonal, Fin.sum_univ_succ,
        Fin.sum_univ_zero, Matrix.cons_val_zero, Matrix.cons_val_one,
        Matrix.head_cons, Matrix.cons_val_succ]
  · intro i j hij
    fin_cases i <;> fin_cases j
    · norm_num [exRun3]
    · norm_num [exRun3, Equiv.swap_apply_left, Equiv.swap_apply_right]
    · exact absurd hij (by decide)
    · norm_num [exRun3]
  · intro j
    fin_cases j <;> norm_num [exRun3]
  · intro j
    fin_cases j <;>
      norm_num [exRun3, V2, V1, Matrix.mul_apply, Fin.sum_univ_succ,
        Fin.sum_univ_zero, Matrix.cons_val_zero, Matrix.cons_val_one,
        Matrix.head_cons, Matrix.cons_val_succ, Equiv.swap_apply_left,
        Equiv.swap_apply_right]

/-! A single-class batch (for the claim about `C < 2`): two samples of one
feature, both labelled `0`.  With `sw_reg = 2` the regularized within scatter
is `[[4]]`, whose Cholesky factor is `[[2]]`, and the whitened between
scatter is `[[0]]`. -/

/-- Single-class example batch. -/
def exH1 : Matrix (Fin 2) (Fin 1) ℚ := Matrix.of ![![3], ![5]]

/-- Labels of the single-class example batch: one class only. -/
def exY1 : Fin 2 → ℤ := ![0, 0]

/-- Library-call outputs for `exH1/exY1` at `sw_reg = 2`. -/
def exRun1 : SolveRun 1 :=
  { L := Matrix.of ![![2]]
    L_i := Matrix.of ![![1/2]]
    L_ti := Matrix.of ![![1/2]]
    V0 := Matrix.of ![![1]]
    w0 := ![0]
    perm := Equiv.refl (Fin 1)
    norms := ![1/2] }

/-- Exactly one class is present in the single-class example batch. -/
lemma exNCateg1 : nCateg exY1 = 1 := by decide

/-- Within scatter of the single-class example batch. -/
lemma exS_w1 : S_w exH1 exY1 = Matrix.of ![![2]] := by
  have h0 : Nc (![0, 0] : Fin 2 → ℤ) 0 = 2 := by decide
  have h3 : nCateg (![0, 0] : Fin 2 → ℤ) = 1 := by decide
  have hcs : classSet exY1 = ({0} : Finset ℤ) := by decide
  rw [S_w, hcs, Finset.sum_singleton]
  ext a b
  fin_cases a <;> fin_cases b <;>
    norm_num [h0, h3, classDivisor, S_c, classMean, classIdx,
      Finset.sum_filter, exH1, exY1, Fin.sum_univ_succ, Fin.sum_univ_zero,
      Matrix.cons_val_zero, Matrix.cons_val_one, Matrix.head_cons,
      Matrix.cons_val_succ]

/-- Total scatter of the single-class example batch. -/
lemma exS_t1 : S_t exH1 = Matrix.of ![![2]] := by
  ext a b
  fin_cases a <;> fin_cases b <;>
    norm_num [S_t, Hbar, globalMean, exH1, Matrix.mul_apply,
      Matrix.transpose_apply, Fin.sum_univ_succ, Fin.sum_univ_zero,
      Matrix.cons_val_zero, Matrix.cons_val_one, Matrix.head_cons,
      Matrix.cons_val_succ]

/-- Between scatter of the single-class example batch is zero. -/
lemma exS_b1 : S_b exH1 exY1 = 0 := by
  rw [S_b, exS_t1, exS_w1]
  ext a b
  fin_cases a <;> fin_cases b <;> norm_num [Matrix.sub_apply]

/-- Regularized within scatter of the single-class batch at `sw_reg = 2`. -/
lemma exS_w_reg1 : S_w_reg exH1 exY1 2 = Matrix.of ![![4]] := by
  rw [S_w_reg, exS_w1]
  ext a b
  fin_cases a <;> fin_cases b <;>
    norm_num [Matrix.add_apply, Matrix.smul_apply, Matrix.one_apply]

/-- The outputs in `exRun1` satisfy every library-call specification for
the single-class batch at `sw_reg = 2`. -/
lemma exValid1 : ValidRun exH1 exY1 2 exRun1 := by
  refine ⟨?_, ?_, ?_, ?_, ?_, ?_, ?_, ?_, ?_, ?_, ?_, ?_⟩
  · intro i j hij
    fin_cases i <;> fin_cases j
    exact absurd hij (by decide)
  · intro i
    fin_cases i <;> norm_num [exRun1]
  · rw [exS_w_reg1]
    ext a b
    fin_cases a <;> fin_cases b <;>
      norm_num [exRun1, Matrix.mul_apply, Matrix.transpose_apply,
        Fin.sum_univ_succ, Fin.sum_univ_zero, Matrix.cons_val_zero]
  · ext a b
    fin_cases a <;> fin_cases b <;>
      norm_num [exRun1, Matrix.mul_apply, Matrix.one_apply, Fin.sum_univ_succ,
        Fin.sum_univ_zero, Matrix.cons_val_zero]
  · ext a b
    fin_cases a <;> fin_cases b <;>
      norm_num [exRun1, Matrix.mul_apply, Matrix.one_apply, Fin.sum_univ_succ,
        Fin.sum_univ_zero, Matrix.cons_val_zero]
  · ext a b
    fin_cases a <;> fin_cases b <;>
      norm_num [exRun1, Matrix.mul_apply, Matrix.one_apply,
        Matrix.transpose_apply, Fin.sum_univ_succ, Fin.sum_univ_zero,
        Matrix.cons_val_zero]
  · ext a b
    fin_cases a <;> fin_cases b <;>
      norm_num [exRun1, Matrix.mul_apply, Matrix.one_apply,
        Matrix.transpose_apply, Fin.sum_univ_succ, Fin.sum_univ_zero,
        Matrix.cons_val_zero]
  · ext a b
    fin_cases a <;> fin_cases b <;>
      norm_num [exRun1, Matrix.mul_apply, Matrix.one_apply,
        Matrix.transpose_apply, Fin.sum_univ_succ, Fin.sum_univ_zero,
        Matrix.cons_val_zero]
  · rw [S_new, exS_b1]
    ext a b
    fin_cases a <;> fin_cases b <;>
      norm_num [exRun1, Matrix.mul_apply, Matrix.diagonal, Fin.sum_univ_succ,
        Fin.sum_univ_zero, Matrix.cons_val_zero]
  · intro i j hij
    fin_cases i <;> fin_cases j
    norm_num [exRun1]
  · intro j
    fin_cases j <;> norm_num [exRun1]
  · intro j
    fin_cases j <;>
      norm_num [exRun1, V2, V1, Matrix.mul_apply, Fin.sum_univ_succ,
        Fin.sum_univ_zero, Matrix.cons_val_zero]

/-! A batch with a singleton class (for the claim about single-sample
classes): three samples of one feature, two labelled `0` and one labelled
`1`.  With `sw_reg = 3` the regularized within scatter is `[[4]]` and the
whitened between scatter is `[[3/4]]`. -/

/-- Example batch whose class `1` has exactly one sample. -/
def exH2 : Matrix (Fin 3) (Fin 1) ℚ := Matrix.of ![![0], ![2], ![4]]

/-- Labels of the singleton-class example batch. -/
def exY2 : Fin 3 → ℤ := ![0, 0, 1]

/-- Library-call outputs for `exH2/exY2` at `sw_reg = 3`. -/
def exRun2 : SolveRun 1 :=
  { L := Matrix.of ![![2]]
    L_i := Matrix.of ![![1/2]]
    L_ti := Matrix.of ![![1/2]]
    V0 := Matrix.of ![![1]]
    w0 := ![3/4]
    perm := Equiv.refl (Fin 1)
    norms := ![1/2] }

/-- Two classes are present in the singleton-class example batch. -/
lemma exNCateg2 : nCateg exY2 = 2 := by decide

/-- Class `1` of the singleton-class example batch has exactly one sample. -/
lemma exNc2 : Nc exY2 1 = 1 := by decide

/-- Within scatter of the singleton-class example batch (the singleton class
contributes its zero numerator scaled by the inverse of its zero divisor). -/
lemma exS_w2 : S_w exH2 exY2 = Matrix.of ![![1]] := by
  have h0 : Nc (![0, 0, 1] : Fin 3 → ℤ) 0 = 2 := by decide
  have h1 : Nc (![0, 0, 1] : Fin 3 → ℤ) 1 = 1 := by decide
  have h3 : nCateg (![0, 0, 1] : Fin 3 → ℤ) = 2 := by decide
  have hcs : classSet exY2 = ({0, 1} : Finset ℤ) := by decide
  rw [S_w, hcs, Finset.sum_insert (by decide), Finset.sum_singleton]
  ext a b
  fin_cases a <;> fin_cases b <;>
    norm_num [h0, h1, h3, classDivisor, S_c, classMean, classIdx,
      Finset.sum_filter, exH2, exY2, Fin.sum_univ_succ, Fin.sum_univ_zero,
      Matrix.cons_val_zero, Matrix.cons_val_one, Matrix.head_cons,
      Matrix.cons_val_succ]

/-- Total scatter of the singleton-class example batch. -/
lemma exS_t2 : S_t exH2 = Matrix.of ![![4]] := by
  ext a b
  fin_cases a <;> fin_cases b <;>
    norm_num [S_t, Hbar, globalMean, exH2, Matrix.mul_apply,
      Matrix.transpose_apply, Fin.sum_univ_succ, Fin.sum_univ_zero,
      Matrix.cons_val_zero, Matrix.cons_val_one, Matrix.head_cons,
      Matrix.cons_val_succ]

/-- Between scatter of the singleton-class example batch. -/
lemma exS_b2 : S_b exH2 exY2 = Matrix.of ![![3]] := by
  rw [S_b, exS_t2, exS_w2]
  ext a b
  fin_cases a <;> fin_cases b <;> norm_num [Matrix.sub_apply]

/-- Regularized within scatter of the singleton-class batch at
`sw_reg = 3`. -/
lemma exS_w_reg2 : S_w_reg exH2 exY2 3 = Matrix.of ![![4]] := by
  rw [S_w_reg, exS_w2]
  ext a b
  fin_cases a <;> fin_cases b <;>
    norm_num [Matrix.add_apply, Matrix.smul_apply, Matrix.one_apply]

/-- The outputs in `exRun2` satisfy every library-call specification for
the singleton-class batch at `sw_reg = 3`. -/
lemma exValid2 : ValidRun exH2 exY2 3 exRun2 := by
  refine ⟨?_, ?_, ?_, ?_, ?_, ?_, ?_, ?_, ?_, ?_, ?_, ?_⟩
  · intro i j hij
    fin_cases i <;> fin_cases j
    exact absurd hij (by decide)
  · intro i
    fin_cases i <;> norm_num [exRun2]
  · rw [exS_w_reg2]
    ext a b
    fin_cases a <;> fin_cases b <;>
      norm_num [exRun2, Matrix.mul_apply, Matrix.transpose_apply,
        Fin.sum_univ_succ, Fin.sum_univ_zero, Matrix.cons_val_zero]
  · ext a b
    fin_cases a <;> fin_cases b <;>
      norm_num [exRun2, Matrix.mul_apply, Matrix.one_apply, Fin.sum_univ_succ,
        Fin.sum_univ_zero, Matrix.cons_val_zero]
  · ext a b
    fin_cases a <;> fin_cases b <;>
      norm_num [exRun2, Matrix.mul_apply, Matrix.one_apply, Fin.sum_univ_succ,
        Fin.sum_univ_zero, Matrix.cons_val_zero]
  · ext a b
    fin_cases a <;> fin_cases b <;>
      norm_num [exRun2, Matrix.mul_apply, Matrix.one_apply,
        Matrix.transpose_apply, Fin.sum_univ_succ, Fin.sum_univ_zero,
        Matrix.cons_val_zero]
  · ext a b
    fin_cases a <;> fin_cases b <;>
      norm_num [exRun2, Matrix.mul_apply, Matrix.one_apply,
        Matrix.transpose_apply, Fin.sum_univ_succ, Fin.sum_univ_zero,
        Matrix.cons_val_zero]
  · ext a b
    fin_cases a <;> fin_cases b <;>
      norm_num [exRun2, Matrix.mul_apply, Matrix.one_apply,
        Matrix.transpose_apply, Fin.sum_univ_succ, Fin.sum_univ_zero,
        Matrix.cons_val_zero]
  · rw [S_new, exS_b2]
    ext a b
    fin_cases a <;> fin_cases b <;>
      norm_num [exRun2, Matrix.mul_apply, Matrix.diagonal, Fin.sum_univ_succ,
        Fin.sum_univ_zero, Matrix.cons_val_zero]
  · intro i j hij
    fin_cases i <;> fin_cases j
    norm_num [exRun2]
  · intro j
    fin_cases j <;> norm_num [exRun2]
  · intro j
    fin_cases j <;>
      norm_num [exRun2, V2, V1, Matrix.mul_apply, Fin.sum_univ_succ,
        Fin.sum_univ_zero, Matrix.cons_val_zero]

/-! Concrete model states used below, and evaluation of the solver outputs
on the example runs. -/

/-- A `DeepLDA` state with `sw_reg = 1` and the lorentzian regularization
explicitly disabled, reached by `set_regularization(1, 0)`. -/
def stC1 : DeepState := deep_set_regularization deepInitState 1 (some 0)

/-- A `LinearDiscriminant` state that already stores `d_ = 99` (left over
from an earlier fit) and has `sw_reg = 1`. -/
def stC2 : LDAState := { initState with d_ := some 99, sw_reg := 1 }

/-- A `LinearDiscriminant` state with `sw_reg = 2`. -/
def stC3 : LDAState := { initState with sw_reg := 2 }

/-- A `LinearDiscriminant` state with `sw_reg = 3`. -/
def stC4 : LDAState := { initState with sw_reg := 3 }

/-- A `LinearDiscriminant` state with `sw_reg = 1`. -/
def stC6 : LDAState := { initState with sw_reg := 1 }

/-- The list of all indices of `Fin 2`. -/
lemma finRangeTwo : List.finRange 2 = [0, 1] := by decide

/-- The list of all indices of `Fin 1`. -/
lemma finRangeOne : List.finRange 1 = [0] := by decide

/-- Eigenvalues returned by the three-class example run: both whitened
eigenvalues, in descending order. -/
lemma exEigvals3 : eigvalsOut exY3 exRun3 = [-12/125, -48/125] := by
  rw [eigvalsOut, exNCateg, finRangeTwo]
  norm_num [sortedVals, exRun3, Equiv.swap_apply_left, Equiv.swap_apply_right,
    Matrix.cons_val_zero, Matrix.cons_val_one, Matrix.head_cons]

/-- Eigenvalues returned by the single-class example run: the empty list. -/
lemma exEigvals1 : eigvalsOut exY1 exRun1 = [] := by
  simp [eigvalsOut, exNCateg1]

/-- Eigenvalues returned by the singleton-class example run. -/
lemma exEigvals2 : eigvalsOut exY2 exRun2 = [3/4] := by
  rw [eigvalsOut, exNCateg2, finRangeOne]
  norm_num [sortedVals, exRun2, Matrix.cons_val_zero]

/-- Normalized eigenvectors of the three-class example run, before the sign
fix: the identity matrix. -/
lemma exV3 : V3 exRun3 = 1 := by
  ext i j
  fin_cases i <;> fin_cases j <;>
    norm_num [V3, V2, V1, exRun3, Matrix.mul_apply, Matrix.one_apply,
      Fin.sum_univ_succ, Fin.sum_univ_zero, Matrix.cons_val_zero,
      Matrix.cons_val_one, Matrix.head_cons, Matrix.cons_val_succ,
      Equiv.swap_apply_left, Equiv.swap_apply_right]

/-- Canonicalized eigenvectors of the three-class example run: the second
column has first coordinate exactly `0`, so the sign fix multiplies it by
`sign(0) = 0` and zeroes it out entirely. -/
lemma exV4 : V4 exRun3 = Matrix.of ![![1, 0], ![0, 0]] := by
  ext i j
  fin_cases i <;> fin_cases j <;>
    norm_num [V4, sgnQ, exV3, Matrix.one_apply, Matrix.cons_val_zero,
      Matrix.cons_val_one, Matrix.head_cons, Matrix.cons_val_succ]

/-- Truncated stored eigenvectors of the three-class example run. -/
lemma exEvecs3 : evecsOut exY3 exRun3 = [[1, 0], [0, 0]] := by
  rw [evecsOut, exNCateg, finRangeTwo]
  norm_num [exV4, Matrix.cons_val_zero, Matrix.cons_val_one, Matrix.head_cons,
    Matrix.cons_val_succ]

/-- Loss value computed by `loss_function` on the three-class example run:
minus the FIRST (largest) sorted eigenvalue, with no lorentzian term. -/
lemma exLoss3 : lossOf stC1 exH3 (eigvalsOut exY3 exRun3) =
    Except.ok (12/125) := by
  rw [exEigvals3]
  norm_num [lossOf, stC1, deep_set_regularization, deepInitState]

/-! Helper lemmas about the solver output shared by the claim theorems. -/

/-- The returned eigenvalue list has exactly `min (C-1) d` entries. -/
lemma eigvalsOut_length (y : Fin N → ℤ) (r : SolveRun d) :
    (eigvalsOut y r).length = min (nCateg y - 1) d := by
  simp [eigvalsOut]

/-- The returned eigenvalue list is sorted in non-increasing order. -/
lemma eigvalsOut_sorted (y : Fin N → ℤ) (r : SolveRun d)
    (hs : ∀ i j : Fin d, i ≤ j → r.w0 (r.perm j) ≤ r.w0 (r.perm i)) :
    List.Sorted (· ≥ ·) (eigvalsOut y r) := by
  have h1 : ((List.finRange d).map (sortedVals r)).Pairwise (· ≥ ·) := by
    rw [List.pairwise_map]
    exact (List.pairwise_lt_finRange d).imp fun hab => hs _ _ (le_of_lt hab)
  exact List.Pairwise.sublist (List.take_sublist _ _) h1

/-- When at least two classes are present (and `d ≥ 1`), the returned
eigenvalue list starts with the top sorted eigenvalue. -/
lemma eigvalsOut_cons [NeZero d] (y : Fin N → ℤ) (r : SolveRun d)
    (h2 : 2 ≤ nCateg y) :
    ∃ tl, eigvalsOut y r = sortedVals r 0 :: tl := by
  rcases Nat.exists_eq_succ_of_ne_zero (NeZero.ne d) with ⟨e, rfl⟩
  obtain ⟨k, hk⟩ : ∃ k, nCateg y - 1 = k + 1 := ⟨nCateg y - 2, by omega⟩
  exact ⟨_, by rw [eigvalsOut, List.finRange_succ, List.map_cons, hk,
    List.take_succ_cons]⟩

/-- Rounding half to even fixes integers. -/
lemma roundHalfEven_intCast (n : ℤ) : roundHalfEven (n : ℚ) = n := by
  norm_num [roundHalfEven, Int.floor_intCast]

/-- Decimal rendering of the coefficient `0.6`. -/
lemma fmt6_sixTenths : fmt6 (3/5) = "0.6" := by
  have h : roundHalfEven ((3/5 : ℚ) * 1000000) = 600000 := by
    rw [show ((3/5 : ℚ) * 1000000) = ((600000 : ℤ) : ℚ) by norm_num,
      roundHalfEven_intCast]
  show fmt6core (roundHalfEven ((3/5 : ℚ) * 1000000)) = "0.6"
  rw [h]
  decide

/-- Decimal rendering of the coefficient `0.8`. -/
lemma fmt6_eightTenths : fmt6 (4/5) = "0.8" := by
  have h : roundHalfEven ((4/5 : ℚ) * 1000000) = 800000 := by
    rw [show ((4/5 : ℚ) * 1000000) = ((800000 : ℤ) : ℚ) by norm_num,
      roundHalfEven_intCast]
  show fmt6core (roundHalfEven ((4/5 : ℚ) * 1000000)) = "0.8"
  rw [h]
  decide

/-! Claim theorems. -/

/-- C1 (amended): for every successful loss computation the loss equals
minus the FIRST sorted eigenvalue — the LARGEST of the retained ones, not
the smallest (`eigvals[0]`, per the source line
`loss = - eigvals[0]  # TODO GENERALIZE TO MULTICLASS`) — plus the
lorentzian term exactly when `lorentzian_reg > 0`. -/
theorem C1DeepLossIsTopEigenvalue [NeZero d] (st : DeepState)
    (H : Matrix (Fin N) (Fin d) ℚ) (y : Fin N → ℤ) (r : SolveRun d)
    (hr : ValidRun H y st.sw_reg r) (h2 : 2 ≤ nCateg y) :
    lossOf st H (eigvalsOut y r) =
      Except.ok (-(sortedVals r 0) +
        if 0 < st.lorentzian_reg then regularization_lorentzian st H else 0)
    ∧ ∀ j : Fin d, sortedVals r j ≤ sortedVals r 0 := by
  rcases Nat.exists_eq_succ_of_ne_zero (NeZero.ne d) with ⟨e, rfl⟩
  obtain ⟨tl, htl⟩ := eigvalsOut_cons y r h2
  refine ⟨?_, ?_⟩
  · rw [htl]
    rfl
  · intro j
    exact hr.sorted 0 j (Fin.zero_le j)

/-- C1 witness: the loss theorem applied to the three-class example run. -/
theorem C1Witness :
    2 ≤ nCateg exY3 ∧
      lossOf stC1 exH3 (eigvalsOut exY3 exRun3) =
        Except.ok (-(sortedVals exRun3 0) +
          if 0 < stC1.lorentzian_reg then
            regularization_lorentzian stC1 exH3
          else 0) :=
  ⟨by decide,
    (C1DeepLossIsTopEigenvalue stC1 exH3 exY3 exRun3 exValid3 (by decide)).1⟩

/-- C1 counterexample: on the three-class example batch (C = 3, lorentzian
regularizer off) the computed loss is `12/125 = -eigvals[0]`, while the
claim prescribes `-eigvals[C-2] = -eigvals[1] = 48/125`. -/
theorem C1Counterexample :
    nCateg exY3 = 3
    ∧ stC1.lorentzian_reg = 0
    ∧ LossStepRel stC1 exH3 exY3 false
        ({ stC1 with
            toLDAState := updState stC1.toLDAState exH3 exY3 exRun3 false },
          Except.ok (12/125))
    ∧ (eigvalsOut exY3 exRun3).getD (nCateg exY3 - 2) 0 = -48/125
    ∧ (12/125 : ℚ) ≠ -(-48/125 : ℚ) := by
  refine ⟨by decide, rfl, Or.inl ⟨exRun3, exValid3, ?_⟩, ?_, by norm_num⟩
  · rw [exLoss3]
  · rw [exEigvals3, exNCateg]
    norm_num [List.getD]

/-- C2 (amended): a solve with `save_params = false` leaves `evals_`,
`evecs_`, `S_b_`, `S_w_`, `features_names_` and `sw_reg` unchanged, but the
stored attribute `d_` is ALWAYS overwritten with the input feature count
(the source executes `self.d_ = d` before checking `save_params`). -/
theorem C2TransientSolveStateEffects [NeZero d] (st : LDAState)
    (H : Matrix (Fin N) (Fin d) ℚ) (y : Fin N → ℤ)
    (out : LDAState × Except PyExc (List ℚ))
    (h : LDAStepRel st H y false out) :
    out.1.evals_ = st.evals_ ∧ out.1.evecs_ = st.evecs_ ∧
    out.1.S_b_ = st.S_b_ ∧ out.1.S_w_ = st.S_w_ ∧
    out.1.features_names_ = st.features_names_ ∧
    out.1.sw_reg = st.sw_reg ∧ out.1.d_ = some d := by
  rcases h with ⟨r, hr, rfl⟩ | ⟨hpd, rfl⟩ <;> simp [updState]

/-- C2 witness: the transient-solve theorem applied to the three-class
example run. -/
theorem C2Witness :
    (updState stC2 exH3 exY3 exRun3 false).evals_ = stC2.evals_ ∧
    (updState stC2 exH3 exY3 exRun3 false).evecs_ = stC2.evecs_ ∧
    (updState stC2 exH3 exY3 exRun3 false).S_b_ = stC2.S_b_ ∧
    (updState stC2 exH3 exY3 exRun3 false).S_w_ = stC2.S_w_ ∧
    (updState stC2 exH3 exY3 exRun3 false).features_names_ =
      stC2.features_names_ ∧
    (updState stC2 exH3 exY3 exRun3 false).sw_reg = stC2.sw_reg ∧
    (updState stC2 exH3 exY3 exRun3 false).d_ = some 2 :=
  C2TransientSolveStateEffects stC2 exH3 exY3 _
    (Or.inl ⟨exRun3, exValid3, rfl⟩)

/-- C2 counterexample: a `save_params = false` solve on a state that stores
`d_ = 99` overwrites that stored attribute with `2`, so not every stored
field is unchanged. -/
theorem C2Counterexample :
    LDAStepRel stC2 exH3 exY3 false
      (updState stC2 exH3 exY3 exRun3 false,
        Except.ok (eigvalsOut exY3 exRun3))
    ∧ stC2.d_ = some 99
    ∧ (updState stC2 exH3 exY3 exRun3 false).d_ = some 2
    ∧ (some 99 : Option ℕ) ≠ some 2 :=
  ⟨Or.inl ⟨exRun3, exValid3, rfl⟩, rfl, rfl, by decide⟩

/-- C3 (amended): when only one class is present the solve never raises
an `InvalidClassCountError` (no such check exists in the source); a
successful solve simply returns an empty eigenvalue list, because the
truncation keeps `n_categ - 1 = 0` entries. -/
theorem C3SingleClassSolveOutcome [NeZero d] (st : LDAState)
    (H : Matrix (Fin N) (Fin d) ℚ) (y : Fin N → ℤ) (save : Bool)
    (out : LDAState × Except PyExc (List ℚ))
    (h : LDAStepRel st H y save out) (h1 : nCateg y = 1) :
    out.2 ≠ Except.error PyExc.invalidClassCountError ∧
      ∀ l, out.2 = Except.ok l → l = [] := by
  rcases h with ⟨r, hr, rfl⟩ | ⟨hpd, rfl⟩
  · refine ⟨by simp, ?_⟩
    intro l hl
    have hll : eigvalsOut y r = l := by simpa using hl
    rw [← hll, eigvalsOut, h1]
    simp
  · refine ⟨by simp, ?_⟩
    intro l hl
    simp at hl
/-- C3 witness: the single-class theorem applied to the single-class
example run. -/
theorem C3Witness :
    nCateg exY1 = 1 ∧
      (updState stC3 exH1 exY1 exRun1 false,
          Except.ok (eigvalsOut exY1 exRun1)).2 ≠
        Except.error PyExc.invalidClassCountError :=
  ⟨by decide,
    (C3SingleClassSolveOutcome stC3 exH1 exY1 false _
      (Or.inl ⟨exRun1, exValid1, rfl⟩) (by decide)).1⟩

/-- C3 counterexample: on a single-class batch (C = 1 < 2) the solve
completes and returns the empty eigenvalue list instead of raising
`InvalidClassCountError`. -/
theorem C3Counterexample :
    nCateg exY1 = 1
    ∧ LDAStepRel stC3 exH1 exY1 false
        (updState stC3 exH1 exY1 exRun1 false,
          Except.ok (eigvalsOut exY1 exRun1))
    ∧ eigvalsOut exY1 exRun1 = []
    ∧ (Except.ok ([] : List ℚ) : Except PyExc (List ℚ)) ≠
        Except.error PyExc.invalidClassCountError :=
  ⟨by decide, Or.inl ⟨exRun1, exValid1, rfl⟩, exEigvals1, by simp⟩

/-- C4 (amended): a class with exactly one sample makes the scale factor of
its within-scatter contribution a division by zero — the divisor
`(N_i - 1) * n_categ` is exactly `0` while the numerator matrix is `0`
(a `0/0`, NaN in the float implementation) — and no
`InsufficientSamplesError` is ever raised (no such check exists in the
source). -/
theorem C4SingletonClassDivisionByZero [NeZero d] (st : LDAState)
    (H : Matrix (Fin N) (Fin d) ℚ) (y : Fin N → ℤ) (save : Bool)
    (out : LDAState × Except PyExc (List ℚ)) (c : ℤ)
    (h : LDAStepRel st H y save out) (hc : Nc y c = 1) :
    classDivisor y c = 0 ∧ S_c H y c = 0 ∧
      out.2 ≠ Except.error PyExc.insufficientSamplesError := by
  refine ⟨?_, ?_, ?_⟩
  · rw [classDivisor, hc]
    norm_num
  · have hc1 : (classIdx y c).card = 1 := hc
    obtain ⟨i0, hi0⟩ := Finset.card_eq_one.mp hc1
    have hm : ∀ j, classMean H y c j = H i0 j := by
      intro j
      rw [classMean, hi0, Finset.sum_singleton, hc]
      norm_num
    ext a b
    simp [S_c, hi0, Finset.sum_singleton, hm]
  · rcases h with ⟨r, hr, rfl⟩ | ⟨hpd, rfl⟩ <;> simp

/-- C4 witness: the singleton-class theorem applied to the singleton-class
example run. -/
theorem C4Witness :
    Nc exY2 1 = 1 ∧ classDivisor exY2 1 = 0 :=
  ⟨by decide,
    (C4SingletonClassDivisionByZero stC4 exH2 exY2 false _ 1
      (Or.inl ⟨exRun2, exValid2, rfl⟩) (by decide)).1⟩

/-- C4 counterexample: on the batch whose class `1` has a single sample the
scale divisor is `0`, yet the solve completes normally and returns an
eigenvalue, raising no `InsufficientSamplesError`. -/
theorem C4Counterexample :
    Nc exY2 1 = 1
    ∧ classDivisor exY2 1 = 0
    ∧ LDAStepRel stC4 exH2 exY2 false
        (updState stC4 exH2 exY2 exRun2 false,
          Except.ok (eigvalsOut exY2 exRun2))
    ∧ eigvalsOut exY2 exRun2 = [3/4]
    ∧ (Except.ok ([3/4] : List ℚ) : Except PyExc (List ℚ)) ≠
        Except.error PyExc.insufficientSamplesError := by
  refine ⟨by decide, ?_, Or.inl ⟨exRun2, exValid2, rfl⟩, exEigvals2, by simp⟩
  rw [classDivisor, exNc2]
  norm_num

/-- C5 (amended): calling `transform` before any fit fails with a
`TypeError` (from `torch.matmul(X, None)`), not with a `NotFittedError` —
the source performs no fitted-check and no `NotFittedError` exists. -/
theorem C5TransformUnfittedTypeError (st : LDAState)
    (h : st.evecs_ = none) (X : List (List ℚ)) :
    transform st X = Except.error PyExc.typeError := by
  simp [transform, h]

/-- C5 witness: the unfitted-transform theorem applied to the freshly
constructed state. -/
theorem C5Witness :
    initState.evecs_ = none ∧
      transform initState [[1]] = Except.error PyExc.typeError :=
  ⟨rfl, C5TransformUnfittedTypeError initState rfl [[1]]⟩

/-- C5 counterexample: on a never-fitted projector, `transform` yields a
`TypeError`, which is not a `NotFittedError`. -/
theorem C5Counterexample :
    initState.evecs_ = none
    ∧ transform initState [[1]] = Except.error PyExc.typeError
    ∧ (Except.error PyExc.typeError : Except PyExc (List (List ℚ))) ≠
        Except.error PyExc.notFittedError :=
  ⟨rfl, rfl, by simp⟩

/-- C6 (amended): the scatter matrices as computed satisfy
`S_w + S_b = S_t` exactly; but what a saving solve STORES as `S_w_` is the
REGULARIZED within scatter, so the stored matrices satisfy
`S_w_ + S_b_ = S_t + sw_reg * I` instead of `S_t`. -/
theorem C6ScatterDecomposition [NeZero d] (st : LDAState)
    (H : Matrix (Fin N) (Fin d) ℚ) (y : Fin N → ℤ) (r : SolveRun d) :
    S_w H y + S_b H y = S_t H
    ∧ (updState st H y r true).S_w_ = some (matToList (S_w_reg H y st.sw_reg))
    ∧ (updState st H y r true).S_b_ = some (matToList (S_b H y))
    ∧ S_w_reg H y st.sw_reg + S_b H y =
        S_t H + st.sw_reg • (1 : Matrix (Fin d) (Fin d) ℚ) := by
  refine ⟨?_, rfl, rfl, ?_⟩
  · rw [S_b]
    abel
  · rw [S_w_reg, S_b]
    abel

/-- C6 witness: the scatter-decomposition theorem applied to the
three-class example run. -/
theorem C6Witness :
    S_w exH3 exY3 + S_b exH3 exY3 = S_t exH3
    ∧ (updState stC6 exH3 exY3 exRun3 true).S_w_ =
        some (matToList (S_w_reg exH3 exY3 stC6.sw_reg))
    ∧ (updState stC6 exH3 exY3 exRun3 true).S_b_ =
        some (matToList (S_b exH3 exY3))
    ∧ S_w_reg exH3 exY3 stC6.sw_reg + S_b exH3 exY3 =
        S_t exH3 + stC6.sw_reg • (1 : Matrix (Fin 2) (Fin 2) ℚ) :=
  C6ScatterDecomposition stC6 exH3 exY3 exRun3

/-- C6 counterexample: after a saving solve on the three-class example
batch the stored `S_w_` and `S_b_` do NOT sum to the total scatter — the
sum exceeds it by `sw_reg * I` (`sw_reg = 1` here, entry `(0,0)` is
`113/5` against `108/5`). -/
theorem C6Counterexample :
    LDAStepRel stC6 exH3 exY3 true
      (updState stC6 exH3 exY3 exRun3 true,
        Except.ok (eigvalsOut exY3 exRun3))
    ∧ (updState stC6 exH3 exY3 exRun3 true).S_w_ =
        some (matToList (S_w_reg exH3 exY3 1))
    ∧ (updState stC6 exH3 exY3 exRun3 true).S_b_ =
        some (matToList (S_b exH3 exY3))
    ∧ S_w_reg exH3 exY3 1 + S_b exH3 exY3 ≠ S_t exH3 := by
  refine ⟨Or.inl ⟨exRun3, exValid3, rfl⟩, rfl, rfl, ?_⟩
  intro hEq
  rw [exS_w_reg, exS_b, exS_t] at hEq
  have h00 := congrFun (congrFun hEq 0) 0
  norm_num [Matrix.add_apply, Matrix.cons_val_zero] at h00

/-- C7 (code bug): `sw_reg` does default to `1e-6` on construction, but
`LinearDiscriminant.set_regularization` assigns the constant `0.05` and
ignores its argument, contradicting its own docstring — so the stored
`sw_reg` after `set_regularization(1/4)` is `1/20`, not `1/4`. -/
theorem C7SetRegularizationIgnoresArgument :
    initState.sw_reg = 1 / 1000000
    ∧ (set_regularization initState (1/4)).sw_reg = 1 / 20
    ∧ (1 / 20 : ℚ) ≠ 1 / 4 :=
  ⟨rfl, rfl, by norm_num⟩

/-- C8: on a fitted 2-feature, 1-component state with eigenvector
`(0.6, 0.8)` and no feature names, `plumed_input` returns exactly the
claimed `COMBINE` line. -/
theorem C8PlumedExactString (st : LDAState) (ev : ℚ)
    (h1 : st.evals_ = some [ev])
    (h2 : st.evecs_ = some [[3/5], [4/5]])
    (h3 : st.d_ = some 2)
    (h4 : st.features_names_ = none) :
    plumed_input st =
      Except.ok "lda: COMBINE ARG=x0,x1 COEFFICIENTS=0.6,0.8 PERIODIC=NO" := by
  simp [plumed_input, h1, h2, h3, h4,
    show List.range 2 = [0, 1] from by decide,
    show List.range 1 = [0] from by decide,
    List.foldl_cons, List.foldl_nil, List.getD_cons_zero,
    List.getD_cons_succ, fmt6_sixTenths, fmt6_eightTenths]
  decide

/-- C8 state: a fitted 2-feature, 1-component solution with eigenvector
`(0.6, 0.8)` and no feature names. -/
def stC8 : LDAState :=
  { evals_ := some [1], evecs_ := some [[3/5], [4/5]], S_b_ := none,
    S_w_ := none, d_ := some 2, features_names_ := none,
    sw_reg := 1 / 1000000 }

/-- C8 witness: the exporter theorem applied to the concrete fitted
state. -/
theorem C8Witness :
    plumed_input stC8 =
      Except.ok "lda: COMBINE ARG=x0,x1 COEFFICIENTS=0.6,0.8 PERIODIC=NO" :=
  C8PlumedExactString stC8 1 rfl rfl rfl rfl

/-- C9: every successful solve returns the eigenvalues in non-increasing
order, exactly `min (C-1) d` of them, and each stored eigenvector row is
truncated to the same `min (C-1) d` entries. -/
theorem C9EigenvalueOrderAndCount [NeZero d] (swr : ℚ)
    (H : Matrix (Fin N) (Fin d) ℚ) (y : Fin N → ℤ) (r : SolveRun d)
    (hr : ValidRun H y swr r) (_h2 : 2 ≤ nCateg y) :
    (eigvalsOut y r).length = min (nCateg y - 1) d
    ∧ List.Sorted (· ≥ ·) (eigvalsOut y r)
    ∧ ∀ row ∈ evecsOut y r, row.length = min (nCateg y - 1) d := by
  refine ⟨eigvalsOut_length y r, eigvalsOut_sorted y r hr.sorted, ?_⟩
  intro row hrow
  rw [evecsOut] at hrow
  obtain ⟨i, -, rfl⟩ := List.mem_map.mp hrow
  simp

/-- C9 witness: the order-and-count theorem applied to the three-class
example run. -/
theorem C9Witness :
    2 ≤ nCateg exY3 ∧
      (eigvalsOut exY3 exRun3).length = min (nCateg exY3 - 1) 2 ∧
      List.Sorted (· ≥ ·) (eigvalsOut exY3 exRun3) :=
  ⟨by decide,
    (C9EigenvalueOrderAndCount 1 exH3 exY3 exRun3 exValid3 (by decide)).1,
    (C9EigenvalueOrderAndCount 1 exH3 exY3 exRun3 exValid3 (by decide)).2.1⟩

/-- C10 (amended): after canonicalization an eigenvector whose first
coordinate is nonzero has squared norm exactly `1` and strictly positive
first coordinate; but in the edge case of a first coordinate exactly `0`
the sign fix multiplies the column by `sign(0) = 0` and the WHOLE
eigenvector becomes `0` (squared norm `0`, not `1`). -/
theorem C10CanonicalizationDichotomy [NeZero d] (swr : ℚ)
    (H : Matrix (Fin N) (Fin d) ℚ) (y : Fin N → ℤ) (r : SolveRun d)
    (hr : ValidRun H y swr r) (j : Fin d) :
    (V3 r 0 j ≠ 0 → (∑ i, (V4 r i j) ^ 2 = 1 ∧ 0 < V4 r 0 j))
    ∧ (V3 r 0 j = 0 → ∀ i, V4 r i j = 0) := by
  constructor
  · intro hf
    have hn : r.norms j ≠ 0 := by
      intro h0
      exact hf (by simp [V3, h0])
    have hs : ∑ i, (V3 r i j) ^ 2 = 1 := by
      have hterm : ∀ i : Fin d, (V3 r i j) ^ 2 = (V2 r i j) ^ 2 / (r.norms j) ^ 2 := by
        intro i
        simp [V3, div_pow]
      rw [Finset.sum_congr rfl fun i _ => hterm i, ← Finset.sum_div,
        ← hr.norms_sq j, div_self (pow_ne_zero 2 hn)]
    rcases lt_trichotomy (V3 r 0 j) 0 with hneg | hzero | hpos
    · have hsg : sgnQ (V3 r 0 j) = -1 := by rw [sgnQ, if_pos hneg]
      constructor
      · have hterm : ∀ i : Fin d, (V4 r i j) ^ 2 = (V3 r i j) ^ 2 := by
          intro i
          simp [V4, hsg]
        rw [Finset.sum_congr rfl fun i _ => hterm i, hs]
      · have : V4 r 0 j = -(V3 r 0 j) := by simp [V4, hsg]
        rw [this]
        linarith
    · exact absurd hzero hf
    · have hsg : sgnQ (V3 r 0 j) = 1 := by
        rw [sgnQ, if_neg (not_lt.mpr hpos.le), if_neg (ne_of_gt hpos)]
      constructor
      · have hterm : ∀ i : Fin d, (V4 r i j) ^ 2 = (V3 r i j) ^ 2 := by
          intro i
          simp [V4, hsg]
        rw [Finset.sum_congr rfl fun i _ => hterm i, hs]
      · have : V4 r 0 j = V3 r 0 j := by simp [V4, hsg]
        rw [this]
        exact hpos
  · intro hf i
    simp [V4, hf, sgnQ]

/-- C10 witness: the canonicalization theorem applied to the first
eigenvector of the three-class example run, whose first coordinate is
nonzero. -/
theorem C10Witness :
    V3 exRun3 0 0 ≠ 0 ∧
      (∑ i, (V4 exRun3 i 0) ^ 2 = 1 ∧ 0 < V4 exRun3 0 0) :=
  have hne : V3 exRun3 0 0 ≠ 0 := by norm_num [exV3, Matrix.one_apply]
  ⟨hne,
    (C10CanonicalizationDichotomy 1 exH3 exY3 exRun3 exValid3 0).1 hne⟩

/-- C10 counterexample: in the three-class example run the second returned
eigenvector has first coordinate exactly `0`; the sign fix zeroes it out
entirely, so its squared norm is `0`, not `1`. -/
theorem C10Counterexample :
    ValidRun exH3 exY3 1 exRun3
    ∧ V3 exRun3 0 1 = 0
    ∧ evecsOut exY3 exRun3 = [[1, 0], [0, 0]]
    ∧ (∑ i, (V4 exRun3 i 1) ^ 2) = 0
    ∧ (0 : ℚ) ≠ 1 := by
  refine ⟨exValid3, ?_, exEvecs3, ?_, by norm_num⟩
  · norm_num [exV3, Matrix.one_apply]
  · norm_num [exV4, Fin.sum_univ_succ, Fin.sum_univ_zero,
      Matrix.cons_val_zero, Matrix.cons_val_one, Matrix.head_cons,
      Matrix.cons_val_succ]

end Mlcvs
